import Mathlib

/-!
Verification of the cycling tire-pressure calculator.

This file gives a shallow embedding of the three pure computational modules of
the repository and proves properties about them:

* `src/lib/calc.ts` — the baseline pressure heuristic (`computeWheelPsi` and its
  coefficient tables), embedded over `ℚ` (JavaScript numbers carry only field
  operations here, so exact rational arithmetic models them faithfully up to
  floating-point rounding, which none of the verified statements depend on);
* `src/utils/pressureComp.ts` — the temperature/elevation compensation model
  (`compensatePressurePsi`), also over `ℚ`;
* `BestWindDirection.tsx` — the wind-heading optimizer (`angleDiff`,
  `scoreHeading`, `recommendHeadings`, `bearingToCompass`), embedded over `ℝ`
  because it uses trigonometric functions, in namespace `Wind`;
* `useWind.ts` — the display helpers `windComponents` and `toCompass`, in
  namespace `UseWind`;
* a NaN-aware model of the wind pipeline in namespace `JS`, used to settle the
  error-handling claim about non-finite wind inputs.

JavaScript's remainder operator `%` (truncated division) is modelled by
`jsMod`, and `Math.round` by `jsRound` (floor of x + 1/2, which matches
JavaScript's round-half-toward-positive-infinity behaviour).
-/

/-! ### Baseline pressure model, from src/lib/calc.ts -/

/-- Road-surface category, from the `SURFACES` list in `constants.ts`. -/
inductive Surface
  | trackIndoorWood
  | trackOutdoorConcrete
  | newPavement
  | wornPavement
  | poorPavement
  | cobblestone
  | gravel1
  | gravel2
  | gravel3
  | gravel4
deriving DecidableEq

/-- Riding-speed category, from the `SPEEDS` list in `constants.ts`. -/
inductive Speed
  | recreational
  | moderateGroupRide
  | fastGroupRide
  | catRacing
  | proTour
  | fastSingleTrack
deriving DecidableEq

/-- Tire-construction category, from the `TIRE_TYPES` list in `constants.ts`. -/
inductive TireType
  | highPerformanceTubeless
  | midRangeTubeless
  | midRangeButyl
  | punctureResistantTubeless
deriving DecidableEq

/-- Wheel-diameter category, from the `WHEEL_DIAMETERS` list in `constants.ts`
(reserved by the source, unused by the pressure formula). -/
inductive WheelDiameter
  | d700c29
  | d650c
  | d650b275
  | d26
deriving DecidableEq

/-- Tunable scaling constant for baseline pressure (`export const K = 20`). -/
def K : ℚ := 20

/-- Surface multiplier table `SURFACE_MULT` from calc.ts lines 14-25. -/
def SURFACE_MULT : Surface → ℚ
  | .trackIndoorWood => 0.2
  | .trackOutdoorConcrete => 0.15
  | .newPavement => 0.05
  | .wornPavement => 0
  | .poorPavement => -0.1
  | .cobblestone => -0.2
  | .gravel1 => -0.25
  | .gravel2 => -0.35
  | .gravel3 => -0.45
  | .gravel4 => -0.55

/-- Tire-type additive offset table `TIRE_TYPE_OFFSET` from calc.ts lines 27-32. -/
def TIRE_TYPE_OFFSET : TireType → ℚ
  | .highPerformanceTubeless => 0
  | .midRangeTubeless => 2
  | .midRangeButyl => 5
  | .punctureResistantTubeless => 7

/-- Speed multiplier table `SPEED_MULT` from calc.ts lines 34-41. -/
def SPEED_MULT : Speed → ℚ
  | .recreational => -0.05
  | .moderateGroupRide => 0
  | .fastGroupRide => 0.03
  | .catRacing => 0.05
  | .proTour => 0.07
  | .fastSingleTrack => 0.03

/-- Embedding of `clamp` from calc.ts line 43:
`(v, min, max) => Math.max(min, Math.min(max, v))`. -/
def clamp (v mn mx : ℚ) : ℚ := max mn (min mx v)

/-- Parameter record `ComputeWheelPsiParams` from calc.ts lines 45-52. -/
structure ComputeWheelPsiParams where
  loadLbs : ℚ
  tireWidthMm : ℚ
  surface : Surface
  speed : Speed
  tireType : TireType
  wheelDiameter : WheelDiameter

/-- Embedding of `computeWheelPsi` from calc.ts lines 58-65.  The successive
`let` bindings mirror the source's sequential mutation of `psi`. -/
def computeWheelPsi (p : ComputeWheelPsiParams) : ℚ :=
  let safeTireWidthMm := clamp p.tireWidthMm 20 90
  let psi1 := K * (p.loadLbs / safeTireWidthMm)
  let psi2 := psi1 * (1 + SURFACE_MULT p.surface)
  let psi3 := psi2 * (1 + SPEED_MULT p.speed)
  let psi4 := psi3 + TIRE_TYPE_OFFSET p.tireType
  clamp psi4 15 130

/-- Reference definition written from the specification's words (section 4.1):
width clamped to [20,90], then a linear proxy `K * (load / clampedWidth)` with
`K = 20`, then the surface-dependent multiplicative adjustment `(1 + offset)`,
then the speed-dependent multiplicative adjustment `(1 + offset)`, then the
tire-construction additive offset, and finally a clamp to [15,130] PSI, in
exactly this order. -/
def computeWheelPsiSpecOrder (p : ComputeWheelPsiParams) : ℚ :=
  clamp
    (K * (p.loadLbs / clamp p.tireWidthMm 20 90)
      * (1 + SURFACE_MULT p.surface)
      * (1 + SPEED_MULT p.speed)
      + TIRE_TYPE_OFFSET p.tireType)
    15 130

/-! ### Pressure compensation model, from src/utils/pressureComp.ts -/

/-- Kelvin helper `C_to_K` from pressureComp.ts line 115. -/
def C_to_K (c : ℚ) : ℚ := c + 273.15

/-- Embedding of `compensatePressurePsi` from pressureComp.ts lines 131-154.
`keepAbsoluteConstant` defaults to `false` in the source; the Lean embedding
takes it explicitly. -/
def compensatePressurePsi (gaugePsiRef refTempC ambientTempC ambientPressurePsi : ℚ)
    (keepAbsoluteConstant : Bool) : ℚ :=
  let T_ref := C_to_K refTempC
  let T_now := C_to_K ambientTempC
  let P_abs_ref := gaugePsiRef + ambientPressurePsi
  if keepAbsoluteConstant then
    let P_abs_target := P_abs_ref
    let P_gauge_now := P_abs_target - ambientPressurePsi
    P_gauge_now
  else
    let P_abs_now := P_abs_ref * (T_now / T_ref)
    let P_gauge_now := P_abs_now - ambientPressurePsi
    P_gauge_now

/-! ### Helper lemmas for the pressure model -/

lemma clamp_mono {v w : ℚ} (mn mx : ℚ) (h : v ≤ w) : clamp v mn mx ≤ clamp w mn mx :=
  max_le_max le_rfl (min_le_min le_rfl h)

lemma clamp_eq_self {v mn mx : ℚ} (h1 : mn ≤ v) (h2 : v ≤ mx) : clamp v mn mx = v := by
  unfold clamp
  rw [min_eq_right h2, max_eq_right h1]

lemma clamp_eq_lower {v mn mx : ℚ} (h1 : v ≤ mn) (h2 : mn ≤ mx) : clamp v mn mx = mn := by
  unfold clamp
  rw [min_eq_right (h1.trans h2), max_eq_left h1]

lemma one_add_surface_mult_pos (s : Surface) : 0 < 1 + SURFACE_MULT s := by
  cases s <;> norm_num [SURFACE_MULT]

lemma one_add_speed_mult_pos (sp : Speed) : 0 < 1 + SPEED_MULT sp := by
  cases sp <;> norm_num [SPEED_MULT]

lemma tire_type_offset_le (t : TireType) : TIRE_TYPE_OFFSET t ≤ 7 := by
  cases t <;> norm_num [TIRE_TYPE_OFFSET]

lemma safe_width_pos (w : ℚ) : 0 < clamp w 20 90 :=
  lt_of_lt_of_le (by norm_num) (le_max_left _ _)

/-! ### Claims C1, C2, C3 -/

/-- C1: for every load, tire width, and enumerated surface/speed/tireType,
`computeWheelPsi` equals the reference definition applied in the fixed order
width-clamp → base proxy `K * (load / clampedWidth)` with `K = 20` →
surface scale `(1 + offset)` → speed scale `(1 + offset)` → tire-type additive
offset → final clamp to [15,130]. -/
theorem computeWheelPsi_eq_spec_order (p : ComputeWheelPsiParams) :
    computeWheelPsi p = computeWheelPsiSpecOrder p := rfl

/-- C2: for every non-negative load, every real tire width, and every
enumerated surface, speed and tire type, the value returned by
`computeWheelPsi` lies in the closed interval [15,130] PSI. -/
theorem computeWheelPsi_mem_safe_band (p : ComputeWheelPsiParams)
    (_hload : 0 ≤ p.loadLbs) :
    15 ≤ computeWheelPsi p ∧ computeWheelPsi p ≤ 130 := by
  unfold computeWheelPsi clamp
  constructor
  · exact le_max_left _ _
  · exact max_le (by norm_num) (min_le_left _ _)

/-- Witness for C2 at the spec's concrete scenario (load 86.4 lbs, width 28 mm,
worn pavement, moderate group ride, high-performance tire). -/
theorem computeWheelPsi_mem_safe_band_witness :
    (0:ℚ) ≤ 86.4 ∧
      (15 ≤ computeWheelPsi ⟨86.4, 28, .wornPavement, .moderateGroupRide,
          .highPerformanceTubeless, .d700c29⟩ ∧
        computeWheelPsi ⟨86.4, 28, .wornPavement, .moderateGroupRide,
          .highPerformanceTubeless, .d700c29⟩ ≤ 130) :=
  ⟨by norm_num, computeWheelPsi_mem_safe_band _ (by norm_num)⟩

/-- C3: with surface, speed, tire type and width fixed, `computeWheelPsi` is
monotonically non-decreasing in load; with load and the categorical parameters
fixed, it is monotonically non-increasing in tire width over the clamped range
[20,90]. -/
theorem computeWheelPsi_monotone :
    (∀ (w : ℚ) (s : Surface) (sp : Speed) (t : TireType) (d : WheelDiameter)
        (l₁ l₂ : ℚ), l₁ ≤ l₂ →
        computeWheelPsi ⟨l₁, w, s, sp, t, d⟩ ≤ computeWheelPsi ⟨l₂, w, s, sp, t, d⟩) ∧
    (∀ (l : ℚ) (s : Surface) (sp : Speed) (t : TireType) (d : WheelDiameter)
        (w₁ w₂ : ℚ), 20 ≤ w₁ → w₁ ≤ w₂ → w₂ ≤ 90 →
        computeWheelPsi ⟨l, w₂, s, sp, t, d⟩ ≤ computeWheelPsi ⟨l, w₁, s, sp, t, d⟩) := by
  have hm1 := one_add_surface_mult_pos
  have hm2 := one_add_speed_mult_pos
  constructor
  · intro w s sp t d l₁ l₂ hl
    unfold computeWheelPsi
    apply clamp_mono
    have hW := safe_width_pos w
    have h1 : l₁ / clamp w 20 90 ≤ l₂ / clamp w 20 90 := by gcongr
    have h2 : K * (l₁ / clamp w 20 90) ≤ K * (l₂ / clamp w 20 90) := by
      unfold K; gcongr
    have h3 := mul_le_mul_of_nonneg_right h2 (hm1 s).le
    have h4 := mul_le_mul_of_nonneg_right h3 (hm2 sp).le
    exact add_le_add_right h4 _
  · intro l s sp t d w₁ w₂ h20 h12 h90
    unfold computeWheelPsi
    rw [clamp_eq_self h20 (h12.trans h90), clamp_eq_self (h20.trans h12) h90]
    rcases le_or_lt 0 l with hl | hl
    · apply clamp_mono
      have hw₁ : (0:ℚ) < w₁ := lt_of_lt_of_le (by norm_num) h20
      have h1 : l / w₂ ≤ l / w₁ := by gcongr
      have h2 : K * (l / w₂) ≤ K * (l / w₁) := by unfold K; gcongr
      have h3 := mul_le_mul_of_nonneg_right h2 (hm1 s).le
      have h4 := mul_le_mul_of_nonneg_right h3 (hm2 sp).le
      exact add_le_add_right h4 _
    · -- negative load: both pipeline values fall below the lower clamp of 15
      have key : ∀ w : ℚ, 0 < w →
          K * (l / w) * (1 + SURFACE_MULT s) * (1 + SPEED_MULT sp) + TIRE_TYPE_OFFSET t ≤ 15 := by
        intro w hw
        have hdiv : l / w ≤ 0 := div_nonpos_of_nonpos_of_nonneg hl.le hw.le
        have hK : K * (l / w) ≤ 0 := mul_nonpos_of_nonneg_of_nonpos (by norm_num [K]) hdiv
        have hb : K * (l / w) * (1 + SURFACE_MULT s) ≤ 0 :=
          mul_nonpos_of_nonpos_of_nonneg hK (hm1 s).le
        have hc : K * (l / w) * (1 + SURFACE_MULT s) * (1 + SPEED_MULT sp) ≤ 0 :=
          mul_nonpos_of_nonpos_of_nonneg hb (hm2 sp).le
        have := tire_type_offset_le t
        linarith
      have hw₁ : (0:ℚ) < w₁ := lt_of_lt_of_le (by norm_num) h20
      have hw₂ : (0:ℚ) < w₂ := hw₁.trans_le h12
      rw [clamp_eq_lower (key w₁ hw₁) (by norm_num), clamp_eq_lower (key w₂ hw₂) (by norm_num)]

/-- Witness for C3: load monotonicity at loads 80 ≤ 100 (width 28), and width
antitonicity at widths 25 ≤ 32 inside [20,90] (load 100). -/
theorem computeWheelPsi_monotone_witness :
    computeWheelPsi ⟨80, 28, .wornPavement, .moderateGroupRide,
        .highPerformanceTubeless, .d700c29⟩ ≤
      computeWheelPsi ⟨100, 28, .wornPavement, .moderateGroupRide,
        .highPerformanceTubeless, .d700c29⟩ ∧
    computeWheelPsi ⟨100, 32, .wornPavement, .moderateGroupRide,
        .highPerformanceTubeless, .d700c29⟩ ≤
      computeWheelPsi ⟨100, 25, .wornPavement, .moderateGroupRide,
        .highPerformanceTubeless, .d700c29⟩ :=
  ⟨computeWheelPsi_monotone.1 28 _ _ _ _ 80 100 (by norm_num),
   computeWheelPsi_monotone.2 100 _ _ _ _ 25 32 (by norm_num) (by norm_num) (by norm_num)⟩

/-! ### Claims C5, C6 -/

/-- C5: in gauge-constant mode (`keepAbsoluteConstant = false`), for every
gauge reference pressure, ambient pressure, and reference temperature other
than -273.15 °C, calling `compensatePressurePsi` with `ambientTempC` equal to
`refTempC` returns exactly the reference gauge pressure. -/
theorem compensatePressurePsi_same_temp (gaugePsiRef refTempC ambientPressurePsi : ℚ)
    (h : refTempC ≠ -273.15) :
    compensatePressurePsi gaugePsiRef refTempC refTempC ambientPressurePsi false
      = gaugePsiRef := by
  have hT : C_to_K refTempC ≠ 0 := by
    unfold C_to_K
    intro hc
    apply h
    linarith
  unfold compensatePressurePsi
  simp only [Bool.false_eq_true, if_false]
  rw [div_self hT]
  ring

/-- Witness for C5 at the spec's scenario values (gauge 60 PSI, reference
temperature 20 °C, ambient pressure 14 PSI). -/
theorem compensatePressurePsi_same_temp_witness :
    compensatePressurePsi 60 20 20 14 false = 60 :=
  compensatePressurePsi_same_temp 60 20 14 (by norm_num)

/-- C6: in absolute-constant mode (`keepAbsoluteConstant = true`),
`compensatePressurePsi` holds the absolute pressure at the reference absolute
value (gauge reference plus ambient) and recomputes gauge from the current
ambient; since the same `ambientPressurePsi` argument serves as both reference
and current ambient, the returned value equals `gaugePsiRef` exactly, for every
input and independently of `refTempC` and `ambientTempC`. -/
theorem compensatePressurePsi_absolute_mode (gaugePsiRef refTempC ambientTempC
    ambientPressurePsi : ℚ) :
    compensatePressurePsi gaugePsiRef refTempC ambientTempC ambientPressurePsi true
      = gaugePsiRef := by
  unfold compensatePressurePsi
  simp only [if_true]
  ring

/-! ### JavaScript numeric helpers over ℝ

JavaScript's remainder `a % b` is `a - b * trunc(a / b)` (truncated division,
result carries the sign of the dividend), and `Math.round x` is
`⌊x + 1/2⌋` (halves round toward positive infinity). -/

/-- Truncation toward zero, as used by the JavaScript `%` operator. -/
noncomputable def jsTrunc (x : ℝ) : ℤ := if 0 ≤ x then ⌊x⌋ else ⌈x⌉

/-- JavaScript remainder `a % b` for finite operands. -/
noncomputable def jsMod (a b : ℝ) : ℝ := a - b * (jsTrunc (a / b) : ℝ)

/-- JavaScript `Math.round`: floor of `x + 1/2`. -/
noncomputable def jsRound (x : ℝ) : ℤ := ⌊x + 1/2⌋

/-- JavaScript array indexing for a string array: `l[i]` is `undefined`
(modelled as `none`) when `i` is out of bounds. -/
def jsGetElem (l : List String) (i : ℤ) : Option String :=
  if i < 0 then none else l.get? i.toNat

lemma jsMod_sub_int_mul (a b : ℝ) : ∃ k : ℤ, jsMod a b = a - b * k :=
  ⟨jsTrunc (a / b), rfl⟩

lemma jsMod_nonneg_of_nonneg {a b : ℝ} (ha : 0 ≤ a) (hb : 0 < b) : 0 ≤ jsMod a b := by
  have hq : 0 ≤ a / b := div_nonneg ha hb.le
  unfold jsMod jsTrunc
  rw [if_pos hq]
  have h1 : (⌊a / b⌋ : ℝ) ≤ a / b := Int.floor_le _
  have h2 : b * (⌊a / b⌋ : ℝ) ≤ b * (a / b) := by
    exact mul_le_mul_of_nonneg_left h1 hb.le
  rw [mul_div_cancel₀ a hb.ne'] at h2
  linarith

lemma jsMod_lt_of_pos (a : ℝ) {b : ℝ} (hb : 0 < b) : jsMod a b < b := by
  unfold jsMod jsTrunc
  split_ifs with hq
  · have h1 : a / b - 1 < (⌊a / b⌋ : ℝ) := by
      have := Int.lt_floor_add_one (a / b)
      linarith
    have h2 : b * (a / b - 1) < b * (⌊a / b⌋ : ℝ) := by
      exact mul_lt_mul_of_pos_left h1 hb
    rw [mul_sub, mul_div_cancel₀ a hb.ne'] at h2
    linarith
  · have h1 : a / b ≤ (⌈a / b⌉ : ℝ) := Int.le_ceil _
    have h2 : b * (a / b) ≤ b * (⌈a / b⌉ : ℝ) := mul_le_mul_of_nonneg_left h1 hb.le
    rw [mul_div_cancel₀ a hb.ne'] at h2
    linarith

lemma jsMod_gt_neg (a : ℝ) {b : ℝ} (hb : 0 < b) : -b < jsMod a b := by
  unfold jsMod jsTrunc
  split_ifs with hq
  · have h1 : (⌊a / b⌋ : ℝ) ≤ a / b := Int.floor_le _
    have h2 : b * (⌊a / b⌋ : ℝ) ≤ b * (a / b) := mul_le_mul_of_nonneg_left h1 hb.le
    rw [mul_div_cancel₀ a hb.ne'] at h2
    linarith
  · have h1 : (⌈a / b⌉ : ℝ) < a / b + 1 := Int.ceil_lt_add_one _
    have h2 : b * (⌈a / b⌉ : ℝ) < b * (a / b + 1) := mul_lt_mul_of_pos_left h1 hb
    rw [mul_add, mul_div_cancel₀ a hb.ne', mul_one] at h2
    linarith

/-! ### Wind heading optimizer, from BestWindDirection.tsx -/

namespace Wind

/-- Embedding of `clampDeg` (line 23): `((deg % 360) + 360) % 360`. -/
noncomputable def clampDeg (deg : ℝ) : ℝ := jsMod (jsMod deg 360 + 360) 360

/-- Embedding of `toRad` (line 24): `(deg * Math.PI) / 180`. -/
noncomputable def toRad (deg : ℝ) : ℝ := deg * Real.pi / 180

/-- Embedding of `angleDiff` (lines 27-31): smallest signed angular difference
`a - b` shifted into [-180, 180]. -/
noncomputable def angleDiff (a b : ℝ) : ℝ :=
  jsMod (clampDeg a - clampDeg b + 540) 360 - 180

/-- The 16-point compass rose `COMPASS_16` (lines 33-36). -/
def COMPASS_16 : List String :=
  ["N", "NNE", "NE", "ENE", "E", "ESE", "SE", "SSE",
   "S", "SSW", "SW", "WSW", "W", "WNW", "NW", "NNW"]

/-- Embedding of `bearingToCompass` (lines 38-41):
`COMPASS_16[Math.round(clampDeg(deg) / 22.5) % 16]`.  An out-of-bounds index
would yield JavaScript `undefined`, modelled as `none`. -/
noncomputable def bearingToCompass (deg : ℝ) : Option String :=
  jsGetElem COMPASS_16 ((jsRound (clampDeg deg / 22.5)).tmod 16)

/-- Result record of `scoreHeading` (lines 73-86). -/
structure ScoreResult where
  score : ℝ
  tailComponent : ℝ
  crossComponent : ℝ
  windTowardDeg : ℝ

/-- Embedding of `scoreHeading` (lines 73-86): convert the meteorological FROM
direction to the TOWARD vector, decompose the wind along the candidate heading,
and penalize the crosswind magnitude. -/
noncomputable def scoreHeading (windFromDeg windSpeed headingDeg crosswindPenalty : ℝ) :
    ScoreResult :=
  let windTowardDeg := clampDeg (windFromDeg + 180)
  let delta := angleDiff headingDeg windTowardDeg
  let tail := windSpeed * Real.cos (toRad delta)
  let cross := |windSpeed * Real.sin (toRad delta)|
  let score := tail - crosswindPenalty * cross
  ⟨score, tail, cross, windTowardDeg⟩

/-- Candidate record `Recommendation` (lines 44-51). -/
structure Recommendation where
  headingDeg : ℝ
  headingLabel : Option String
  score : ℝ
  tailComponent : ℝ
  crossComponent : ℝ
  windTowardDeg : ℝ

/-- Option record `RecommendOptions` (lines 53-59); `none` fields take the
defaults resolved at the top of `recommendHeadings` (lines 93-99). -/
structure RecommendOptions where
  resolutionDeg : Option ℝ
  crosswindPenalty : Option ℝ
  allowedHeadings : Option (List (ℝ × ℝ))
  minSeparationDeg : Option ℝ
  topK : Option ℝ

/-- Embedding of `inIntervals` (lines 61-71): membership of a bearing in a
list of possibly wrapped closed angular intervals. -/
noncomputable def inIntervals (x : ℝ) (ranges : Option (List (ℝ × ℝ))) : Bool :=
  match ranges with
  | none => true
  | some rs =>
    rs.isEmpty ||
      rs.any fun ab =>
        let A := clampDeg ab.1
        let B := clampDeg ab.2
        let d := clampDeg x
        if A ≤ B then decide (A ≤ d) && decide (d ≤ B)
        else decide (A ≤ d) || decide (d ≤ B)

/-- Builds the candidate for lattice heading `h` (lines 104-117). -/
noncomputable def mkCandidate (windFromDeg windSpeed crosswindPenalty h : ℝ) :
    Recommendation :=
  let r := scoreHeading windFromDeg windSpeed h crosswindPenalty
  ⟨h, bearingToCompass h, r.score, r.tailComponent, r.crossComponent, r.windTowardDeg⟩

/-- Embedding of the lattice for-loop of `recommendHeadings` (lines 102-118):
`for (let h = 0; h < 360; h += resolutionDeg)`, filtered by `inIntervals`.
The loop is written with explicit fuel because the source loop does not
terminate when `resolutionDeg ≤ 0`; `recommendHeadings` below passes fuel that
is provably sufficient whenever `resolutionDeg > 0` (claim C10 characterizes
exactly when the source loop exits). -/
noncomputable def buildCandidates (windFromDeg windSpeed crosswindPenalty : ℝ)
    (ranges : Option (List (ℝ × ℝ))) (resolutionDeg : ℝ) :
    ℕ → ℝ → List Recommendation
  | 0, _ => []
  | fuel + 1, h =>
    if h < 360 then
      if inIntervals h ranges then
        mkCandidate windFromDeg windSpeed crosswindPenalty h ::
          buildCandidates windFromDeg windSpeed crosswindPenalty ranges resolutionDeg fuel
            (h + resolutionDeg)
      else
        buildCandidates windFromDeg windSpeed crosswindPenalty ranges resolutionDeg fuel
          (h + resolutionDeg)
    else []

/-- Stable insertion step for the sort `candidates.sort((a, b) => b.score - a.score)`
(line 121): an already placed element `y` stays in front of the element `c`
being inserted exactly when the comparator value `c.score - y.score` is ≤ 0,
which matches ECMAScript's stable sort for this comparator. -/
noncomputable def insertSorted (c : Recommendation) :
    List Recommendation → List Recommendation
  | [] => [c]
  | y :: ys =>
    if c.score - y.score ≤ 0 then y :: insertSorted c ys
    else c :: y :: ys

/-- Sort of the candidate list by descending score (line 121), as a stable
insertion sort. -/
noncomputable def sortCandidates (l : List Recommendation) : List Recommendation :=
  l.foldl (fun acc c => insertSorted c acc) []

/-- Embedding of the diversity selection loop (lines 124-129): walk the sorted
candidates, stop once `topK` are picked, and skip any candidate within
`minSeparationDeg` of an already picked heading. -/
noncomputable def pickLoop (minSeparationDeg topK : ℝ) :
    List Recommendation → List Recommendation → List Recommendation
  | [], picked => picked
  | c :: cs, picked =>
    if topK ≤ (picked.length : ℝ) then picked
    else if picked.any fun p => decide (|angleDiff p.headingDeg c.headingDeg| < minSeparationDeg)
    then pickLoop minSeparationDeg topK cs picked
    else pickLoop minSeparationDeg topK cs (picked ++ [c])

/-- Fuel sufficient for the lattice loop when the resolution is positive:
the loop variable reaches 360 after at most `⌈360 / resolutionDeg⌉` steps. -/
noncomputable def latticeFuel (resolutionDeg : ℝ) : ℕ := ⌈360 / resolutionDeg⌉₊ + 1

/-- Embedding of `recommendHeadings` (lines 88-131): resolve option defaults,
build the lattice of scored candidates, sort by descending score, then pick up
to `topK` headings no two of which are within `minSeparationDeg`. -/
noncomputable def recommendHeadings (windFromDeg windSpeed : ℝ)
    (opts : RecommendOptions) : List Recommendation :=
  let resolutionDeg := opts.resolutionDeg.getD 5
  let crosswindPenalty := opts.crosswindPenalty.getD 0.4
  let minSeparationDeg := opts.minSeparationDeg.getD 15
  let topK := opts.topK.getD 3
  pickLoop minSeparationDeg topK
    (sortCandidates
      (buildCandidates windFromDeg windSpeed crosswindPenalty opts.allowedHeadings
        resolutionDeg (latticeFuel resolutionDeg) 0))
    []

/-- The loop variable of the lattice for-loop in `recommendHeadings`
(line 102): it starts at 0 and each iteration adds `resolutionDeg`; the loop
exits when it reaches at least 360. -/
def loopVar (resolutionDeg : ℝ) : ℕ → ℝ
  | 0 => 0
  | n + 1 => loopVar resolutionDeg n + resolutionDeg

end Wind

/-! ### Wind display helpers, from useWind.ts -/

namespace UseWind

/-- The 16-point direction array `dirs` inside `toCompass` (useWind.ts line 24);
the source repeats the list rather than sharing it with BestWindDirection.tsx. -/
def dirs : List String :=
  ["N", "NNE", "NE", "ENE", "E", "ESE", "SE", "SSE",
   "S", "SSW", "SW", "WSW", "W", "WNW", "NW", "NNW"]

/-- Embedding of `toCompass` (useWind.ts lines 23-27):
`dirs[Math.round((deg % 360) / 22.5) % 16]`.  Note the missing `+ 360`
normalization compared to `bearingToCompass`; an out-of-bounds index yields
JavaScript `undefined`, modelled as `none`. -/
noncomputable def toCompass (deg : ℝ) : Option String :=
  jsGetElem dirs ((jsRound (jsMod deg 360 / 22.5)).tmod 16)

/-- The intermediate `headwindSigned` value computed inside `windComponents`
(useWind.ts line 31): `speed * Math.cos(alpha)` with
`alpha = ((windFromDeg - headingDeg + 360) % 360) * (Math.PI / 180)`. -/
noncomputable def headwindSigned (windFromDeg headingDeg speed : ℝ) : ℝ :=
  speed * Real.cos (jsMod (windFromDeg - headingDeg + 360) 360 * (Real.pi / 180))

/-- Result record of `windComponents` (useWind.ts lines 29-40). -/
structure WindComponents where
  headwind : ℝ
  headOrTail : String
  crosswind : ℝ
  side : String

/-- Embedding of `windComponents` (useWind.ts lines 29-40). -/
noncomputable def windComponents (windFromDeg headingDeg speed : ℝ) : WindComponents :=
  let alpha := jsMod (windFromDeg - headingDeg + 360) 360 * (Real.pi / 180)
  let hw := speed * Real.cos alpha
  let crossAbs := |speed * Real.sin alpha|
  let beta := jsMod (windFromDeg - headingDeg + 540) 360 - 180
  ⟨|hw|, if 0 ≤ hw then "headwind" else "tailwind", crossAbs,
    if beta < 0 then "left" else "right"⟩

end UseWind

/-! ### Angle-arithmetic lemmas -/

lemma clampDeg_sub_int_mul (x : ℝ) : ∃ k : ℤ, Wind.clampDeg x = x + 360 * k := by
  obtain ⟨k1, h1⟩ := jsMod_sub_int_mul x 360
  obtain ⟨k2, h2⟩ := jsMod_sub_int_mul (jsMod x 360 + 360) 360
  refine ⟨1 - k1 - k2, ?_⟩
  rw [Wind.clampDeg, h2, h1]
  push_cast
  ring

lemma angleDiff_sub_int_mul (a b : ℝ) : ∃ k : ℤ, Wind.angleDiff a b = a - b + 360 * k := by
  obtain ⟨p, hp⟩ := clampDeg_sub_int_mul a
  obtain ⟨q, hq⟩ := clampDeg_sub_int_mul b
  obtain ⟨t, ht⟩ := jsMod_sub_int_mul (Wind.clampDeg a - Wind.clampDeg b + 540) 360
  refine ⟨p - q - t + 1, ?_⟩
  rw [Wind.angleDiff, ht, hp, hq]
  push_cast
  ring

lemma clampDeg_nonneg (x : ℝ) : 0 ≤ Wind.clampDeg x := by
  have h := jsMod_gt_neg x (show (0:ℝ) < 360 by norm_num)
  exact jsMod_nonneg_of_nonneg (by linarith) (by norm_num)

lemma clampDeg_lt_360 (x : ℝ) : Wind.clampDeg x < 360 :=
  jsMod_lt_of_pos _ (by norm_num)

/-- The `windComponents` angle `alpha` and the `scoreHeading` angle `delta`
differ by `π - delta` up to a whole number of turns. -/
lemma alpha_eq_pi_sub_delta (wf h : ℝ) : ∃ m : ℤ,
    jsMod (wf - h + 360) 360 * (Real.pi / 180)
      = Real.pi - Wind.toRad (Wind.angleDiff h (Wind.clampDeg (wf + 180)))
          + m * (2 * Real.pi) := by
  obtain ⟨a, ha⟩ := jsMod_sub_int_mul (wf - h + 360) 360
  obtain ⟨q, hq⟩ := clampDeg_sub_int_mul (wf + 180)
  obtain ⟨r, hr⟩ := angleDiff_sub_int_mul h (Wind.clampDeg (wf + 180))
  refine ⟨r - q - a, ?_⟩
  rw [ha, hr, hq, Wind.toRad]
  push_cast
  ring

/-! ### Claim C7 -/

/-- C7: `windComponents` agrees with `scoreHeading`'s geometry: its crosswind
equals `scoreHeading`'s `crossComponent`, its internal signed headwind value is
the negation of `scoreHeading`'s `tailComponent` (so its `headwind` field is
`|tailComponent|`), and it classifies the wind as "tailwind" exactly when
`tailComponent` is strictly positive. -/
theorem windComponents_consistent_with_scoreHeading (wf h s p : ℝ) :
    (UseWind.windComponents wf h s).crosswind
        = (Wind.scoreHeading wf s h p).crossComponent
    ∧ UseWind.headwindSigned wf h s = -(Wind.scoreHeading wf s h p).tailComponent
    ∧ (UseWind.windComponents wf h s).headwind
        = |(Wind.scoreHeading wf s h p).tailComponent|
    ∧ ((UseWind.windComponents wf h s).headOrTail = "tailwind"
        ↔ 0 < (Wind.scoreHeading wf s h p).tailComponent) := by
  obtain ⟨m, hm⟩ := alpha_eq_pi_sub_delta wf h
  have hcos : Real.cos (jsMod (wf - h + 360) 360 * (Real.pi / 180))
      = -Real.cos (Wind.toRad (Wind.angleDiff h (Wind.clampDeg (wf + 180)))) := by
    rw [hm, Real.cos_add_int_mul_two_pi, Real.cos_pi_sub]
  have hsin : Real.sin (jsMod (wf - h + 360) 360 * (Real.pi / 180))
      = Real.sin (Wind.toRad (Wind.angleDiff h (Wind.clampDeg (wf + 180)))) := by
    rw [hm, Real.sin_add_int_mul_two_pi, Real.sin_pi_sub]
  simp only [UseWind.windComponents, UseWind.headwindSigned, Wind.scoreHeading, hcos, hsin]
  refine ⟨trivial, by ring, by rw [mul_neg, abs_neg], ?_⟩
  rw [mul_neg]
  constructor
  · intro htail
    by_contra hc
    push_neg at hc
    rw [if_pos (by linarith)] at htail
    exact absurd htail (by decide)
  · intro htail
    rw [if_neg (by intro hge; linarith)]

/-! ### Claim C4 -/

lemma pickLoop_pairwise (minSep topK : ℝ) (cs picked : List Wind.Recommendation)
    (h : picked.Pairwise fun p q => minSep ≤ |Wind.angleDiff p.headingDeg q.headingDeg|) :
    (Wind.pickLoop minSep topK cs picked).Pairwise
      fun p q => minSep ≤ |Wind.angleDiff p.headingDeg q.headingDeg| := by
  induction cs generalizing picked with
  | nil => simpa [Wind.pickLoop] using h
  | cons c cs ih =>
    rw [Wind.pickLoop]
    split_ifs with h1 h2
    · exact h
    · exact ih _ h
    · apply ih
      rw [List.pairwise_append]
      refine ⟨h, List.pairwise_singleton _ _, ?_⟩
      intro p hp q hq
      rw [List.mem_singleton] at hq
      subst hq
      simp only [List.any_eq_true, decide_eq_true_eq, not_exists, not_and] at h2
      exact not_lt.mp (h2 p hp)

/-- C4: for every wind direction, wind speed and options, any two distinct
candidates returned by `recommendHeadings` have angular separation, measured by
the signed angle-difference function wrapped into [-180,180], of at least
`minSeparationDeg` (default 15). -/
theorem recommendHeadings_min_separation (wf ws : ℝ) (opts : Wind.RecommendOptions) :
    (Wind.recommendHeadings wf ws opts).Pairwise
      fun p q => opts.minSeparationDeg.getD 15
        ≤ |Wind.angleDiff p.headingDeg q.headingDeg| := by
  simp only [Wind.recommendHeadings]
  exact pickLoop_pairwise _ _ _ _ List.Pairwise.nil

/-! ### Claim C10 -/

lemma loopVar_eq_mul (res : ℝ) (n : ℕ) : Wind.loopVar res n = n * res := by
  induction n with
  | zero => simp [Wind.loopVar]
  | succ n ih =>
    rw [Wind.loopVar, ih]
    push_cast
    ring

/-- C10: the lattice loop of `recommendHeadings` starts its loop variable at 0
and adds `resolutionDeg` each iteration; it reaches the exit bound 360 in
finitely many iterations exactly when `resolutionDeg` is strictly positive —
for `resolutionDeg ≤ 0` the loop variable stays below 360 forever, so
positivity of `resolutionDeg` is a necessary precondition for termination. -/
theorem recommendHeadings_loop_termination (res : ℝ) :
    (0 < res → ∃ n : ℕ, 360 ≤ Wind.loopVar res n) ∧
    (res ≤ 0 → ∀ n : ℕ, Wind.loopVar res n < 360) := by
  constructor
  · intro hres
    obtain ⟨n, hn⟩ := exists_nat_ge (360 / res)
    refine ⟨n, ?_⟩
    rw [loopVar_eq_mul]
    rwa [div_le_iff₀ hres] at hn
  · intro hres n
    rw [loopVar_eq_mul]
    have hn : (0:ℝ) ≤ (n:ℝ) := Nat.cast_nonneg n
    nlinarith

/-- Witness for C10: with the default resolution 5 the loop exits, and with
resolution 0 it never does. -/
theorem recommendHeadings_loop_termination_witness :
    (∃ n : ℕ, 360 ≤ Wind.loopVar 5 n) ∧ (∀ n : ℕ, Wind.loopVar 0 n < 360) :=
  ⟨(recommendHeadings_loop_termination 5).1 (by norm_num),
   (recommendHeadings_loop_termination 0).2 le_rfl⟩

/-! ### Claim C9 -/

/-- Evaluation of a 16-point compass lookup: when the normalized angle `c`
lies in [0,360) and differs from `deg` by a whole number of turns, the
truncated-mod index is in bounds and picks the label at the mathematical-mod
index `round(deg / 22.5) mod 16`. -/
lemma compass_index_eval (l : List String) (hlen : l.length = 16) (deg c : ℝ) (k : ℤ)
    (hc0 : 0 ≤ c) (hc360 : c < 360) (hck : c = deg + 360 * k) :
    ∃ lbl, l.get? ((jsRound (deg / 22.5)) % 16).toNat = some lbl ∧
      jsGetElem l ((jsRound (c / 22.5)).tmod 16) = some lbl := by
  have hq0 : 0 ≤ c / 22.5 := div_nonneg hc0 (by norm_num)
  have hq16 : c / 22.5 < 16 := by
    rw [div_lt_iff₀ (by norm_num)]
    linarith
  have hr0 : 0 ≤ jsRound (c / 22.5) := by
    unfold jsRound
    exact Int.le_floor.mpr (by push_cast; linarith)
  have hsplit : jsRound (c / 22.5) = jsRound (deg / 22.5) + 16 * k := by
    unfold jsRound
    rw [hck]
    have harg : (deg + 360 * k) / 22.5 + 1 / 2 = deg / 22.5 + 1 / 2 + ((16 * k : ℤ) : ℝ) := by
      push_cast
      ring
    rw [harg, Int.floor_add_int]
  have htmod : (jsRound (c / 22.5)).tmod 16 = jsRound (deg / 22.5) % 16 := by
    rw [Int.tmod_eq_emod hr0 (by norm_num), hsplit]
    omega
  set i : ℤ := jsRound (deg / 22.5) % 16 with hi
  have hi0 : 0 ≤ i := Int.emod_nonneg _ (by norm_num)
  have hi16 : i < 16 := Int.emod_lt_of_pos _ (by norm_num)
  have hnat : i.toNat < l.length := by
    rw [hlen]
    omega
  refine ⟨l.get ⟨i.toNat, hnat⟩, List.get?_eq_get hnat, ?_⟩
  rw [htmod]
  unfold jsGetElem
  rw [if_neg (by omega)]
  exact List.get?_eq_get hnat

/-- C9 counterexample: `toCompass` from useWind.ts indexes its direction array
out of bounds at -30 degrees — `(-30) % 360 = -30` in JavaScript, the rounded
index is -1, and `dirs[-1]` is `undefined` (modelled as `none`), so the claim
that both compass functions always index within bounds is false. -/
theorem toCompass_neg_thirty_out_of_bounds : UseWind.toCompass (-30) = none := by
  have h1 : jsMod (-30 : ℝ) 360 = -30 := by
    unfold jsMod jsTrunc
    rw [if_neg (by norm_num)]
    have hc : ⌈(-30 : ℝ) / 360⌉ = 0 := by
      rw [Int.ceil_eq_iff]
      norm_num
    rw [hc]
    norm_num
  have h2 : jsRound ((-30 : ℝ) / 22.5) = -1 := by
    unfold jsRound
    rw [Int.floor_eq_iff]
    norm_num
  unfold UseWind.toCompass
  rw [h1, h2]
  rfl

/-- C9 (amended): `bearingToCompass` from BestWindDirection.tsx indexes its
direction array within bounds for every real degree value, returning the label
at index `round(deg / 22.5) mod 16` (mathematical non-negative modulus), and
`toCompass` from useWind.ts agrees with it for every non-negative degree value;
for negative degrees `toCompass` can index out of bounds (see the
counterexample at -30). -/
theorem compass_label_functions (deg : ℝ) :
    ∃ lbl, Wind.COMPASS_16.get? ((jsRound (deg / 22.5)) % 16).toNat = some lbl ∧
      Wind.bearingToCompass deg = some lbl ∧
      (0 ≤ deg → UseWind.toCompass deg = some lbl) := by
  obtain ⟨k, hk⟩ := clampDeg_sub_int_mul deg
  obtain ⟨lbl, hmath, hbear⟩ :=
    compass_index_eval Wind.COMPASS_16 (by rfl) deg (Wind.clampDeg deg) k
      (clampDeg_nonneg deg) (clampDeg_lt_360 deg) hk
  refine ⟨lbl, hmath, hbear, ?_⟩
  intro hdeg
  obtain ⟨k2, hk2⟩ := jsMod_sub_int_mul deg 360
  obtain ⟨lbl2, hmath2, hto⟩ :=
    compass_index_eval UseWind.dirs (by rfl) deg (jsMod deg 360) (-k2)
      (jsMod_nonneg_of_nonneg hdeg (by norm_num)) (jsMod_lt_of_pos _ (by norm_num))
      (by rw [hk2]; push_cast; ring)
  have hsame : lbl2 = lbl := by
    have : UseWind.dirs = Wind.COMPASS_16 := rfl
    rw [this] at hmath2
    rw [hmath] at hmath2
    exact (Option.some_injective _ hmath2).symm
  rw [← hsame]
  exact hto

/-- Witness for C9 (amended) at 45 degrees: both functions return "NE". -/
theorem compass_label_functions_witness :
    ∃ lbl, Wind.COMPASS_16.get? ((jsRound ((45:ℝ) / 22.5)) % 16).toNat = some lbl ∧
      Wind.bearingToCompass 45 = some lbl ∧
      UseWind.toCompass 45 = some lbl := by
  obtain ⟨lbl, h1, h2, h3⟩ := compass_label_functions 45
  exact ⟨lbl, h1, h2, h3 (by norm_num)⟩

/-! ### NaN-aware model of the wind pipeline

Claim C8 concerns non-finite wind inputs, so the real-valued model above does
not apply.  `JSNum` extends ℝ with a `nan` element whose propagation follows
IEEE-754/JavaScript arithmetic (every arithmetic operation with a NaN operand
yields NaN, every comparison with a NaN operand is false); JavaScript's
infinities are outside this model, which suffices because the claim is settled
at a NaN input.  The `JS` namespace re-embeds the functions of
BestWindDirection.tsx over `JSNum`, with the same structure as the `Wind`
namespace. -/

/-- A JavaScript number: a finite real, or NaN. -/
inductive JSNum
  | num (x : ℝ)
  | nan

namespace JSNum

/-- Addition: NaN-propagating. -/
noncomputable def add : JSNum → JSNum → JSNum
  | num a, num b => num (a + b)
  | _, _ => nan

/-- Subtraction: NaN-propagating. -/
noncomputable def sub : JSNum → JSNum → JSNum
  | num a, num b => num (a - b)
  | _, _ => nan

/-- Multiplication: NaN-propagating.  (JavaScript's `Infinity * 0 = NaN` case
does not arise since infinities are outside the model.) -/
noncomputable def mul : JSNum → JSNum → JSNum
  | num a, num b => num (a * b)
  | _, _ => nan

/-- Division: NaN-propagating; a zero divisor, which JavaScript sends to
±Infinity, is collapsed to NaN (no call site in the modelled code divides by
zero). -/
noncomputable def div : JSNum → JSNum → JSNum
  | num a, num b => if b = 0 then nan else num (a / b)
  | _, _ => nan

/-- `Math.abs`: NaN-propagating. -/
noncomputable def jsabs : JSNum → JSNum
  | num a => num |a|
  | nan => nan

/-- `Math.cos`: NaN-propagating. -/
noncomputable def jscos : JSNum → JSNum
  | num a => num (Real.cos a)
  | nan => nan

/-- `Math.sin`: NaN-propagating. -/
noncomputable def jssin : JSNum → JSNum
  | num a => num (Real.sin a)
  | nan => nan

/-- The `%` operator: NaN-propagating; `x % 0` is NaN in JavaScript. -/
noncomputable def mod : JSNum → JSNum → JSNum
  | num a, num b => if b = 0 then nan else num (jsMod a b)
  | _, _ => nan

/-- The `<` comparison: false whenever an operand is NaN. -/
def lt : JSNum → JSNum → Prop
  | num a, num b => a < b
  | _, _ => False

/-- The `<=` comparison: false whenever an operand is NaN. -/
def le : JSNum → JSNum → Prop
  | num a, num b => a ≤ b
  | _, _ => False

/-- `Number.isFinite`: true exactly for finite numbers. -/
def isFinite : JSNum → Prop
  | num _ => True
  | nan => False

noncomputable instance : ∀ a b : JSNum, Decidable (lt a b)
  | num a, num b => inferInstanceAs (Decidable (a < b))
  | num _, nan => inferInstanceAs (Decidable False)
  | nan, num _ => inferInstanceAs (Decidable False)
  | nan, nan => inferInstanceAs (Decidable False)

noncomputable instance : ∀ a b : JSNum, Decidable (le a b)
  | num a, num b => inferInstanceAs (Decidable (a ≤ b))
  | num _, nan => inferInstanceAs (Decidable False)
  | nan, num _ => inferInstanceAs (Decidable False)
  | nan, nan => inferInstanceAs (Decidable False)

instance : ∀ a : JSNum, Decidable (isFinite a)
  | num _ => inferInstanceAs (Decidable True)
  | nan => inferInstanceAs (Decidable False)

@[simp] lemma add_num (a b : ℝ) : add (num a) (num b) = num (a + b) := rfl

@[simp] lemma sub_num (a b : ℝ) : sub (num a) (num b) = num (a - b) := rfl

@[simp] lemma mul_nan_left (x : JSNum) : mul nan x = nan := by cases x <;> rfl

@[simp] lemma mul_nan_right (x : JSNum) : mul x nan = nan := by cases x <;> rfl

@[simp] lemma sub_nan_left (x : JSNum) : sub nan x = nan := by cases x <;> rfl

@[simp] lemma sub_nan_right (x : JSNum) : sub x nan = nan := by cases x <;> rfl

@[simp] lemma jsabs_nan : jsabs nan = nan := rfl

@[simp] lemma lt_num_iff (a b : ℝ) : lt (num a) (num b) ↔ a < b := Iff.rfl

@[simp] lemma le_num_iff (a b : ℝ) : le (num a) (num b) ↔ a ≤ b := Iff.rfl

@[simp] lemma not_lt_nan_left (x : JSNum) : ¬ lt nan x := by cases x <;> exact not_false

@[simp] lemma not_isFinite_nan : ¬ isFinite nan := not_false

end JSNum

namespace JS

open JSNum

/-- NaN-aware embedding of `clampDeg` (BestWindDirection.tsx line 23). -/
noncomputable def clampDeg (deg : JSNum) : JSNum :=
  mod (add (mod deg (num 360)) (num 360)) (num 360)

/-- NaN-aware embedding of `toRad` (line 24). -/
noncomputable def toRad (deg : JSNum) : JSNum :=
  div (mul deg (num Real.pi)) (num 180)

/-- NaN-aware embedding of `angleDiff` (lines 27-31). -/
noncomputable def angleDiff (a b : JSNum) : JSNum :=
  sub (mod (add (sub (clampDeg a) (clampDeg b)) (num 540)) (num 360)) (num 180)

/-- NaN-aware embedding of `bearingToCompass` (lines 38-41); for a finite
argument it coincides with the real-valued model, and a NaN index yields
JavaScript `undefined`, modelled as `none`. -/
noncomputable def bearingToCompass : JSNum → Option String
  | num x => Wind.bearingToCompass x
  | nan => none

/-- Result record of the NaN-aware `scoreHeading`. -/
structure ScoreResult where
  score : JSNum
  tailComponent : JSNum
  crossComponent : JSNum
  windTowardDeg : JSNum

/-- NaN-aware embedding of `scoreHeading` (lines 73-86). -/
noncomputable def scoreHeading (windFromDeg windSpeed headingDeg crosswindPenalty : JSNum) :
    ScoreResult :=
  let windTowardDeg := clampDeg (add windFromDeg (num 180))
  let delta := angleDiff headingDeg windTowardDeg
  let tail := mul windSpeed (jscos (toRad delta))
  let cross := jsabs (mul windSpeed (jssin (toRad delta)))
  let score := sub tail (mul crosswindPenalty cross)
  ⟨score, tail, cross, windTowardDeg⟩

/-- NaN-aware candidate record `Recommendation` (lines 44-51). -/
structure Recommendation where
  headingDeg : JSNum
  headingLabel : Option String
  score : JSNum
  tailComponent : JSNum
  crossComponent : JSNum
  windTowardDeg : JSNum

/-- NaN-aware option record `RecommendOptions` (lines 53-59). -/
structure RecommendOptions where
  resolutionDeg : Option JSNum
  crosswindPenalty : Option JSNum
  allowedHeadings : Option (List (JSNum × JSNum))
  minSeparationDeg : Option JSNum
  topK : Option JSNum

/-- NaN-aware embedding of `inIntervals` (lines 61-71). -/
noncomputable def inIntervals (x : JSNum) (ranges : Option (List (JSNum × JSNum))) : Bool :=
  match ranges with
  | none => true
  | some rs =>
    rs.isEmpty ||
      rs.any fun ab =>
        let A := clampDeg ab.1
        let B := clampDeg ab.2
        let d := clampDeg x
        if le A B then decide (le A d) && decide (le d B)
        else decide (le A d) || decide (le d B)

/-- Builds the candidate for lattice heading `h` (lines 104-117). -/
noncomputable def mkCandidate (windFromDeg windSpeed crosswindPenalty h : JSNum) :
    Recommendation :=
  let r := scoreHeading windFromDeg windSpeed h crosswindPenalty
  ⟨h, bearingToCompass h, r.score, r.tailComponent, r.crossComponent, r.windTowardDeg⟩

/-- NaN-aware embedding of the lattice for-loop (lines 102-118), with fuel as
in the real-valued model. -/
noncomputable def buildCandidates (windFromDeg windSpeed crosswindPenalty : JSNum)
    (ranges : Option (List (JSNum × JSNum))) (resolutionDeg : JSNum) :
    ℕ → JSNum → List Recommendation
  | 0, _ => []
  | fuel + 1, h =>
    if lt h (num 360) then
      if inIntervals h ranges then
        mkCandidate windFromDeg windSpeed crosswindPenalty h ::
          buildCandidates windFromDeg windSpeed crosswindPenalty ranges resolutionDeg fuel
            (add h resolutionDeg)
      else
        buildCandidates windFromDeg windSpeed crosswindPenalty ranges resolutionDeg fuel
          (add h resolutionDeg)
    else []

/-- The value ECMAScript's `SortCompare` derives from the comparator
`(a, b) => b.score - a.score` (line 121): a NaN comparator result is treated
as +0. -/
noncomputable def compareValue (a b : Recommendation) : ℝ :=
  match sub b.score a.score with
  | num v => v
  | nan => 0

/-- Stable insertion step for the sort (line 121): an already placed element
`y` stays in front of the inserted element `c` exactly when the comparator
value `compareValue y c` is ≤ 0. -/
noncomputable def insertSorted (c : Recommendation) :
    List Recommendation → List Recommendation
  | [] => [c]
  | y :: ys =>
    if compareValue y c ≤ 0 then y :: insertSorted c ys
    else c :: y :: ys

/-- Sort of the candidate list by descending score (line 121). -/
noncomputable def sortCandidates (l : List Recommendation) : List Recommendation :=
  l.foldl (fun acc c => insertSorted c acc) []

/-- NaN-aware embedding of the diversity selection loop (lines 124-129). -/
noncomputable def pickLoop (minSeparationDeg topK : JSNum) :
    List Recommendation → List Recommendation → List Recommendation
  | [], picked => picked
  | c :: cs, picked =>
    if le topK (num (picked.length : ℝ)) then picked
    else if picked.any fun p => decide (lt (jsabs (angleDiff p.headingDeg c.headingDeg))
        minSeparationDeg)
    then pickLoop minSeparationDeg topK cs picked
    else pickLoop minSeparationDeg topK cs (picked ++ [c])

/-- Fuel for the NaN-aware lattice loop: sufficient for a positive finite
resolution; a NaN resolution stops the loop after its second iteration because
`nan < 360` is false. -/
noncomputable def latticeFuel : JSNum → ℕ
  | num r => ⌈360 / r⌉₊ + 1
  | nan => 2

/-- NaN-aware embedding of `recommendHeadings` (lines 88-131). -/
noncomputable def recommendHeadings (windFromDeg windSpeed : JSNum)
    (opts : RecommendOptions) : List Recommendation :=
  let resolutionDeg := opts.resolutionDeg.getD (num 5)
  let crosswindPenalty := opts.crosswindPenalty.getD (num 0.4)
  let minSeparationDeg := opts.minSeparationDeg.getD (num 15)
  let topK := opts.topK.getD (num 3)
  pickLoop minSeparationDeg topK
    (sortCandidates
      (buildCandidates windFromDeg windSpeed crosswindPenalty opts.allowedHeadings
        resolutionDeg (latticeFuel resolutionDeg) (num 0)))
    []

/-- What the `BestWindDirection` component renders (lines 142-205): either the
neutral no-wind-data card or the recommendation list. -/
inductive RenderOutcome
  | noData
  | recs (top : List Recommendation)

/-- Embedding of the `BestWindDirection` component body (lines 142-161): the
recommendation list is computed first (the `useMemo` on line 149), then the
finiteness guard on lines 154-160 selects the no-data rendering. -/
noncomputable def BestWindDirection (windFromDeg windSpeed : JSNum)
    (opts : RecommendOptions) : RenderOutcome :=
  let top := recommendHeadings windFromDeg windSpeed opts
  if ¬ isFinite windFromDeg ∨ ¬ isFinite windSpeed then .noData
  else .recs top

end JS

/-! ### Claim C8 -/

/-- C8 counterexample: with finite wind direction 0, NaN wind speed, and a
360-degree lattice resolution, `recommendHeadings` itself returns a candidate
whose score is NaN — NaN does reach the output boundary of
`recommendHeadings`, because the finiteness guard lives in the component, not
in the scoring pipeline. -/
theorem recommendHeadings_nan_reaches_output :
    ∃ c ∈ JS.recommendHeadings (JSNum.num 0) JSNum.nan
        ⟨some (JSNum.num 360), none, none, none, none⟩, c.score = JSNum.nan := by
  have hfuel : JS.latticeFuel (JSNum.num 360) = 2 := by
    show ⌈(360:ℝ) / 360⌉₊ + 1 = 2
    rw [show (360:ℝ) / 360 = 1 by norm_num, Nat.ceil_one]
  have hscore : (JS.mkCandidate (JSNum.num 0) JSNum.nan (JSNum.num 0.4) (JSNum.num 0)).score
      = JSNum.nan := by
    simp [JS.mkCandidate, JS.scoreHeading]
  have hrec : JS.recommendHeadings (JSNum.num 0) JSNum.nan
      ⟨some (JSNum.num 360), none, none, none, none⟩
      = [JS.mkCandidate (JSNum.num 0) JSNum.nan (JSNum.num 0.4) (JSNum.num 0)] := by
    simp only [JS.recommendHeadings, Option.getD_some, Option.getD_none, hfuel]
    norm_num [JS.buildCandidates, JS.inIntervals, JS.sortCandidates, JS.insertSorted,
      JS.pickLoop]
  rw [hrec]
  exact ⟨_, List.mem_singleton_self _, hscore⟩

/-- C8 (amended): `recommendHeadings` performs no finiteness guard of its own
and can return NaN-scored candidates (see the counterexample); the "no data"
outcome is produced one level up, at the `BestWindDirection` component
boundary: whenever `windFromDeg` or `windSpeed` is non-finite the component
renders the neutral no-wind-data state, so no candidate — NaN-valued or
otherwise — reaches the rendered output, and no exception is thrown. -/
theorem bestWindDirection_guards_non_finite (wf ws : JSNum) (opts : JS.RecommendOptions)
    (h : ¬ JSNum.isFinite wf ∨ ¬ JSNum.isFinite ws) :
    JS.BestWindDirection wf ws opts = JS.RenderOutcome.noData := by
  simp only [JS.BestWindDirection]
  rw [if_pos h]

/-- Witness for C8 (amended) at finite direction 0 and NaN speed. -/
theorem bestWindDirection_guards_non_finite_witness :
    JS.BestWindDirection (JSNum.num 0) JSNum.nan ⟨none, none, none, none, none⟩
      = JS.RenderOutcome.noData :=
  bestWindDirection_guards_non_finite _ _ _ (Or.inr JSNum.not_isFinite_nan)
